import Mathlib

/-!
Shallow embedding of the TTS output pipeline of the weather-rs repository:
the `AudioFormat` model, the error taxonomy, the Google cloud backend's
format negotiation (`GoogleTts::synthesize` / `speak`), the transcoder
(`audio_conversion.rs`), and the output dispatcher
(`TtsPlayer::save_audio_file` / `play_audio`, `execute_tts_output`).

External effects (HTTP, subprocess spawning, the audio device, the file
system) are modelled by explicit environment records supplying each external
outcome, and every operation additionally returns the list of externally
visible actions it performed (an effect trace), so that properties such as
"no subprocess is spawned" are statable and decidable.
-/

namespace WeatherRs

/-- `AudioFormat` from `src/tts/mod.rs`: the closed enumeration of output
encodings. Variants carry no data, so Rust discriminant equality coincides
with equality of values. -/
inductive AudioFormat
  | Mp3
  | Wav
  | Ogg
  | Ulaw
  | Alaw
  | Gsm
  deriving DecidableEq, Repr

namespace AudioFormat

/-- `AudioFormat::telephony_sample_rate` from `src/tts/mod.rs`. -/
def telephony_sample_rate : AudioFormat → Nat
  | .Ulaw | .Alaw | .Gsm => 8000
  | _ => 22050

/-- `AudioFormat::is_telephony_format` from `src/tts/mod.rs`. -/
def is_telephony_format : AudioFormat → Bool
  | .Ulaw | .Alaw | .Gsm => true
  | _ => false

/-- `AudioFormat::file_extension` from `src/tts/mod.rs`. -/
def file_extension : AudioFormat → String
  | .Mp3 => "mp3"
  | .Wav => "wav"
  | .Ogg => "ogg"
  | .Ulaw => "wav"
  | .Alaw => "wav"
  | .Gsm => "gsm"

/-- `AudioFormat::supports_direct_playback` from `src/tts/mod.rs`. -/
def supports_direct_playback : AudioFormat → Bool
  | .Mp3 | .Wav | .Ogg => true
  | _ => false

/-- The `Display` implementation for `AudioFormat` from `src/tts/mod.rs`. -/
def display : AudioFormat → String
  | .Mp3 => "MP3"
  | .Wav => "WAV"
  | .Ogg => "OGG"
  | .Ulaw => "ULAW"
  | .Alaw => "ALAW"
  | .Gsm => "GSM"

end AudioFormat

/-- `TtsError` from `src/tts/mod.rs`: the four-variant error taxonomy, each
carrying a descriptive cause string. -/
inductive TtsError
  | SynthesisError (msg : String)
  | AudioConversionError (msg : String)
  | PlaybackError (msg : String)
  | FileError (msg : String)
  deriving DecidableEq, Repr

/-- `GoogleVoice` from `src/tts/google_tts.rs`. -/
inductive GoogleVoice
  | Default
  | UsFemale
  | UsMale
  | UkFemale
  | UkMale
  deriving DecidableEq, Repr

namespace GoogleVoice

/-- `GoogleVoice::google_voice_name` from `src/tts/google_tts.rs`. -/
def google_voice_name : GoogleVoice → String
  | .Default | .UsFemale => "en-US-Neural2-F"
  | .UsMale => "en-US-Neural2-D"
  | .UkFemale => "en-GB-Neural2-A"
  | .UkMale => "en-GB-Neural2-B"

/-- `GoogleVoice::language_code` from `src/tts/google_tts.rs`. -/
def language_code : GoogleVoice → String
  | .Default | .UsFemale | .UsMale => "en-US"
  | .UkFemale | .UkMale => "en-GB"

end GoogleVoice

/-- `TtsInput` from `src/tts/google_tts.rs` (the `input` object of the JSON
request body). -/
structure TtsInput where
  text : String
  deriving DecidableEq, Repr

/-- `TtsVoice` from `src/tts/google_tts.rs` (the `voice` object of the JSON
request body, serialized with keys `languageCode` and `name`). -/
structure TtsVoice where
  language_code : String
  name : String
  deriving DecidableEq, Repr

/-- `AudioConfig` from `src/tts/google_tts.rs` (the `audioConfig` object of
the JSON request body, serialized with keys `audioEncoding` and
`sampleRateHertz`). -/
structure AudioConfig where
  audio_encoding : String
  sample_rate_hertz : Nat
  deriving DecidableEq, Repr

/-- `TtsRequest` from `src/tts/google_tts.rs`: the JSON request body sent to
the cloud synthesis service. -/
structure TtsRequest where
  input : TtsInput
  voice : TtsVoice
  audio_config : AudioConfig
  deriving DecidableEq, Repr

/-- Externally visible actions of the pipeline, recorded in order as an
effect trace by each modelled operation. -/
inductive Effect
  /-- A subprocess spawn attempt of the named external tool
  (`Command::new(...).spawn()` in `src/tts/audio_conversion.rs`);
  recorded whether or not the spawn succeeds. -/
  | spawnTool (tool : String)
  /-- Entry into one of the audio conversion routines of
  `src/tts/audio_conversion.rs`. -/
  | convertRoutine (name : String)
  /-- The HTTP POST of a synthesis request to the cloud service
  (`src/tts/google_tts.rs`); recorded whether or not the request succeeds. -/
  | httpRequest (req : TtsRequest)
  /-- Opening the default audio output stream
  (`rodio::OutputStream::try_default` in `TtsPlayer::play_audio`). -/
  | openOutputDevice
  /-- Creating the playback sink (`rodio::Sink::try_new`). -/
  | createSink
  /-- Decoding the audio buffer for playback (`rodio::Decoder::new`). -/
  | decodeForPlayback
  /-- Appending the decoded source and blocking until playback ends
  (`sink.append` + `sink.sleep_until_end`). -/
  | appendAndPlay
  /-- `std::fs::write(path, data)`; recorded whether or not the write
  succeeds. -/
  | writeFile (path : String) (data : List Nat)
  /-- A `println!` to standard output. -/
  | printLine (msg : String)
  deriving DecidableEq, Repr

/-- Whether an effect is a call into the transcoding machinery (a subprocess
spawn attempt or entry into a conversion routine). -/
def Effect.isExternalConversion : Effect → Bool
  | .spawnTool _ => true
  | .convertRoutine _ => true
  | _ => false

/-- Whether an effect touches the audio playback device path. -/
def Effect.isPlaybackAction : Effect → Bool
  | .openOutputDevice | .createSink | .decodeForPlayback | .appendAndPlay => true
  | _ => false

/-- Outcomes of the single sox subprocess interaction in
`convert_wav_to_telephony_format` (`src/tts/audio_conversion.rs`): whether
`spawn()` succeeds, whether `wait_with_output()` succeeds, the exit status,
and the captured output and diagnostic streams. -/
structure SoxEnv where
  spawn_ok : Bool
  spawn_err : String
  wait_ok : Bool
  wait_err : String
  status_success : Bool
  stdout : List Nat
  stderr : String
  deriving DecidableEq, Repr

/-- Outcomes of the hound WAV container parse in
`extract_raw_audio_from_wav` (`src/tts/audio_conversion.rs`): whether the
reader construction succeeds, whether collecting the i8 samples succeeds,
and the signed 8-bit samples themselves. -/
structure WavParseEnv where
  reader_ok : Bool
  reader_err : String
  samples_ok : Bool
  samples_err : String
  samples : List Int
  deriving DecidableEq, Repr

/-- Environment for the conversion layer: the WAV parse outcome and the sox
subprocess outcome. -/
structure ConvEnv where
  wav : WavParseEnv
  sox : SoxEnv
  deriving DecidableEq, Repr

/-- `convert_wav_to_telephony_format` from `src/tts/audio_conversion.rs`:
spawn sox with fixed arguments (input wav on stdin, output `sox_format`,
8000 Hz, mono, to stdout), feed the buffer on a detached writer, and take the
subprocess's stdout as the result; spawn failure, wait failure and a nonzero
exit are all reported as `AudioConversionError`. Exactly one tool (sox) is
ever attempted, so the trace is the single spawn attempt. -/
def convert_wav_to_telephony_format (env : SoxEnv) (wav_data : List Nat)
    (sox_format : String) (format_name : String) :
    Except TtsError (List Nat) × List Effect :=
  let _ := wav_data
  let _ := sox_format
  if !env.spawn_ok then
    (.error (.AudioConversionError
      ("Failed to spawn sox for " ++ format_name ++ " conversion: " ++ env.spawn_err)),
     [.spawnTool "sox"])
  else if !env.wait_ok then
    (.error (.AudioConversionError
      ("Sox " ++ format_name ++ " conversion failed: " ++ env.wait_err)),
     [.spawnTool "sox"])
  else if !env.status_success then
    (.error (.AudioConversionError
      ("Sox " ++ format_name ++ " conversion failed: " ++ env.stderr)),
     [.spawnTool "sox"])
  else
    (.ok env.stdout, [.spawnTool "sox"])

/-- `convert_wav_to_gsm` from `src/tts/audio_conversion.rs`. -/
def convert_wav_to_gsm (env : SoxEnv) (wav_data : List Nat) :
    Except TtsError (List Nat) × List Effect :=
  convert_wav_to_telephony_format env wav_data "gsm" "GSM"

/-- `convert_wav_to_ulaw` from `src/tts/audio_conversion.rs`. -/
def convert_wav_to_ulaw (env : SoxEnv) (wav_data : List Nat) :
    Except TtsError (List Nat) × List Effect :=
  convert_wav_to_telephony_format env wav_data "ul" "µ-law"

/-- `convert_wav_to_alaw` from `src/tts/audio_conversion.rs`. -/
def convert_wav_to_alaw (env : SoxEnv) (wav_data : List Nat) :
    Except TtsError (List Nat) × List Effect :=
  convert_wav_to_telephony_format env wav_data "al" "A-law"

/-- Rust's `i8 as u8` reinterpretation of a signed 8-bit sample. -/
def i8_as_u8 (s : Int) : Nat := (s % 256).toNat

/-- `extract_raw_audio_from_wav` from `src/tts/audio_conversion.rs`: parse
the WAV container with hound, collect the samples as i8, and reinterpret
them as u8 bytes; parse or sample failures become `AudioConversionError`. -/
def extract_raw_audio_from_wav (env : WavParseEnv) (wav_data : List Nat)
    (format_name : String) : Except TtsError (List Nat) × List Effect :=
  let _ := wav_data
  if !env.reader_ok then
    (.error (.AudioConversionError
      ("Failed to read WAV for " ++ format_name ++ " extraction: " ++ env.reader_err)),
     [.convertRoutine "extract_raw_audio_from_wav"])
  else if !env.samples_ok then
    (.error (.AudioConversionError
      ("Failed to extract " ++ format_name ++ " samples: " ++ env.samples_err)),
     [.convertRoutine "extract_raw_audio_from_wav"])
  else
    (.ok (env.samples.map i8_as_u8), [.convertRoutine "extract_raw_audio_from_wav"])

/-- `wav_data.starts_with(b"RIFF")`: the buffer begins with the four bytes
0x52 0x49 0x46 0x46. -/
def starts_with_riff : List Nat → Bool
  | 82 :: 73 :: 70 :: 70 :: _ => true
  | _ => false

/-- `convert_to_raw_telephony` from `src/tts/audio_conversion.rs`: RIFF
buffers take the container-extraction path (no subprocess); other buffers go
through sox with the format-specific arguments; non-telephony targets are
rejected with `AudioConversionError`. -/
def convert_to_raw_telephony (env : ConvEnv) (wav_data : List Nat)
    (target_format : AudioFormat) : Except TtsError (List Nat) × List Effect :=
  if starts_with_riff wav_data then
    let r := extract_raw_audio_from_wav env.wav wav_data target_format.display
    (r.1, .convertRoutine "convert_to_raw_telephony" :: r.2)
  else
    match target_format with
    | .Ulaw =>
      let r := convert_wav_to_telephony_format env.sox wav_data "ul" "µ-law"
      (r.1, .convertRoutine "convert_to_raw_telephony" :: r.2)
    | .Alaw =>
      let r := convert_wav_to_telephony_format env.sox wav_data "al" "A-law"
      (r.1, .convertRoutine "convert_to_raw_telephony" :: r.2)
    | .Gsm =>
      let r := convert_wav_to_telephony_format env.sox wav_data "gsm" "GSM"
      (r.1, .convertRoutine "convert_to_raw_telephony" :: r.2)
    | _ =>
      (.error (.AudioConversionError
        ("Unsupported telephony format: " ++ target_format.display)),
       [.convertRoutine "convert_to_raw_telephony"])

/-- Outcome of the `std::fs::write` call in `TtsPlayer::save_audio_file`. -/
structure FsEnv where
  write_ok : Bool
  write_err : String
  deriving DecidableEq, Repr

namespace TtsPlayer

/-- `TtsPlayer::save_audio_file` from `src/tts/mod.rs`: write the buffer to
the output path exactly as given (the `_format` parameter is unused by the
source), then print the saved-to message; a failed write becomes
`FileError`. -/
def save_audio_file (env : FsEnv) (audio_data : List Nat)
    (output_path : String) (_format : AudioFormat) :
    Except TtsError Unit × List Effect :=
  let file_path := output_path
  if !env.write_ok then
    (.error (.FileError ("Failed to write " ++ file_path ++ ": " ++ env.write_err)),
     [.writeFile file_path audio_data])
  else
    (.ok (), [.writeFile file_path audio_data,
              .printLine ("Audio saved to: " ++ file_path)])

/-- `TtsPlayer::convert_audio_format` from `src/tts/mod.rs`: identical
discriminants (identical tags, since `AudioFormat` variants carry no data)
return the input bytes unchanged; WAV to a telephony format goes through
`convert_to_raw_telephony`; every other pair is rejected. -/
def convert_audio_format (env : ConvEnv) (audio_data : List Nat)
    (from_format : AudioFormat) (to_format : AudioFormat) :
    Except TtsError (List Nat) × List Effect :=
  if from_format = to_format then
    (.ok audio_data, [])
  else if from_format = .Wav && to_format.is_telephony_format then
    convert_to_raw_telephony env audio_data to_format
  else
    (.error (.AudioConversionError
      ("Conversion from " ++ from_format.display ++ " to " ++ to_format.display
        ++ " is not yet supported")),
     [])

/-- Outcomes of the rodio playback calls in `TtsPlayer::play_audio`. -/
structure PlayEnv where
  stream_ok : Bool
  stream_err : String
  sink_ok : Bool
  sink_err : String
  decode_ok : Bool
  decode_err : String
  deriving DecidableEq, Repr

/-- `TtsPlayer::play_audio` from `src/tts/mod.rs`: formats without direct
playback support are rejected with `PlaybackError` before any device or
decoder is touched; otherwise open the default output stream, create a sink,
decode the buffer, and play to completion. -/
def play_audio (env : PlayEnv) (audio_data : List Nat) (format : AudioFormat) :
    Except TtsError Unit × List Effect :=
  let _ := audio_data
  if !format.supports_direct_playback then
    (.error (.PlaybackError
      (format.display ++ " format does not support direct playback. Use --output to save to file.")),
     [])
  else if !env.stream_ok then
    (.error (.PlaybackError ("Failed to create audio stream: " ++ env.stream_err)),
     [.openOutputDevice])
  else if !env.sink_ok then
    (.error (.PlaybackError ("Failed to create audio sink: " ++ env.sink_err)),
     [.openOutputDevice, .createSink])
  else if !env.decode_ok then
    (.error (.PlaybackError ("Failed to decode audio: " ++ env.decode_err)),
     [.openOutputDevice, .createSink, .decodeForPlayback])
  else
    (.ok (), [.openOutputDevice, .createSink, .decodeForPlayback, .appendAndPlay])

end TtsPlayer

/-- `GoogleTts` from `src/tts/google_tts.rs`: the cloud backend, configured
with an API key and a voice preset. -/
structure GoogleTts where
  api_key : String
  voice : GoogleVoice
  deriving DecidableEq, Repr

/-- Outcomes of the blocking HTTP interaction with the cloud synthesis
service in `GoogleTts::synthesize`: whether the request goes out, the
response status, the response body text used on failure, whether the JSON
body parses, whether the base64 audio content decodes, and the decoded audio
bytes. -/
structure HttpEnv where
  send_ok : Bool
  send_err : String
  status_success : Bool
  error_text : String
  json_ok : Bool
  json_err : String
  b64_ok : Bool
  b64_err : String
  audio_data : List Nat
  deriving DecidableEq, Repr

/-- Environment for one `GoogleTts::synthesize` call: the HTTP outcome and
the conversion-layer outcome. -/
structure SynthEnv where
  http : HttpEnv
  conv : ConvEnv
  deriving DecidableEq, Repr

namespace GoogleTts

/-- `GoogleTts::audio_format_to_google_encoding` from
`src/tts/google_tts.rs`: the cloud encoding name per format; GSM has no
cloud encoding and is rejected with `AudioConversionError`. -/
def audio_format_to_google_encoding (format : AudioFormat) :
    Except TtsError String :=
  match format with
  | .Mp3 => .ok "MP3"
  | .Wav => .ok "LINEAR16"
  | .Ogg => .ok "OGG_OPUS"
  | .Ulaw => .ok "MULAW"
  | .Alaw => .ok "ALAW"
  | .Gsm => .error (.AudioConversionError
      "GSM format not directly supported by Google TTS. Use WAV and convert to GSM.")

/-- The format remapping at the top of `GoogleTts::synthesize`: telephony
targets are replaced by WAV (the intermediate format) before the encoding
and sample-rate lookups. -/
def google_format_of (format : AudioFormat) : AudioFormat :=
  if format.is_telephony_format then .Wav else format

/-- The request body built by `GoogleTts::synthesize` from the text, the
looked-up encoding and the looked-up sample rate. -/
def mk_tts_request (tts : GoogleTts) (text : String) (encoding : String)
    (sample_rate : Nat) : TtsRequest :=
  { input := { text := text }
    voice := { language_code := tts.voice.language_code
               name := tts.voice.google_voice_name }
    audio_config := { audio_encoding := encoding
                      sample_rate_hertz := sample_rate } }

/-- `GoogleTts::synthesize` from `src/tts/google_tts.rs`: remap telephony
targets to the WAV intermediate, look up the cloud encoding and the sample
rate of the (remapped) format, POST the request, decode the base64 audio,
and, for telephony targets, hand the buffer to
`TtsPlayer::convert_audio_format` with the original target. -/
def synthesize (tts : GoogleTts) (env : SynthEnv) (text : String)
    (format : AudioFormat) : Except TtsError (List Nat) × List Effect :=
  let google_format := google_format_of format
  let needs_conversion := format.is_telephony_format
  match audio_format_to_google_encoding google_format with
  | .error e => (.error e, [])
  | .ok encoding =>
    let sample_rate := google_format.telephony_sample_rate
    let request := mk_tts_request tts text encoding sample_rate
    if !env.http.send_ok then
      (.error (.SynthesisError ("HTTP request failed: " ++ env.http.send_err)),
       [.httpRequest request])
    else if !env.http.status_success then
      (.error (.SynthesisError ("Google TTS API error: " ++ env.http.error_text)),
       [.httpRequest request])
    else if !env.http.json_ok then
      (.error (.SynthesisError ("Failed to parse response: " ++ env.http.json_err)),
       [.httpRequest request])
    else if !env.http.b64_ok then
      (.error (.SynthesisError ("Failed to decode audio: " ++ env.http.b64_err)),
       [.httpRequest request])
    else
      let audio_data := env.http.audio_data
      if needs_conversion then
        let r := TtsPlayer.convert_audio_format env.conv audio_data google_format format
        (r.1, .httpRequest request :: r.2)
      else
        (.ok audio_data, [.httpRequest request])

/-- `GoogleTts::speak` from `src/tts/google_tts.rs`: synthesize MP3 audio
and play it back through `TtsPlayer::play_audio`. -/
def speak (tts : GoogleTts) (senv : SynthEnv) (penv : TtsPlayer.PlayEnv)
    (text : String) : Except TtsError Unit × List Effect :=
  let r := synthesize tts senv text .Mp3
  match r.1 with
  | .error e => (.error e, r.2)
  | .ok audio_data =>
    let p := TtsPlayer.play_audio penv audio_data .Mp3
    (p.1, r.2 ++ p.2)

end GoogleTts

/-- Environment for one `execute_tts_output` call with the Google backend. -/
structure ExecEnv where
  synth : SynthEnv
  play : TtsPlayer.PlayEnv
  fs : FsEnv
  deriving DecidableEq, Repr

/-- `execute_tts_output` from `src/tts/mod.rs`, instantiated at the
`GoogleTts` backend: with a destination path, synthesize in the requested
format and save to the path; without one, delegate to the backend's
`speak` (which ignores the requested format). -/
def execute_tts_output (tts : GoogleTts) (env : ExecEnv) (announcement : String)
    (output_path : Option String) (audio_format : AudioFormat) :
    Except TtsError Unit × List Effect :=
  let pre : List Effect :=
    if output_path.isSome then [.printLine "Generating audio file..."]
    else [.printLine "Speaking weather..."]
  match output_path with
  | some path =>
    let r := GoogleTts.synthesize tts env.synth announcement audio_format
    match r.1 with
    | .error e => (.error e, pre ++ r.2)
    | .ok audio_data =>
      let s := TtsPlayer.save_audio_file env.fs audio_data path audio_format
      (s.1, pre ++ r.2 ++ s.2)
  | none =>
    let s := GoogleTts.speak tts env.synth env.play announcement
    (s.1, pre ++ s.2)

/-! Concrete fixtures used by counterexamples and witnesses. -/

/-- A concrete cloud backend configuration. -/
def tts0 : GoogleTts := { api_key := "key", voice := .Default }

/-- A sox environment in which everything succeeds. -/
def soxOk : SoxEnv :=
  { spawn_ok := true, spawn_err := "", wait_ok := true, wait_err := ""
    status_success := true, stdout := [7, 8], stderr := "" }

/-- A sox environment in which the binary is absent, so spawning fails. -/
def soxAbsent : SoxEnv :=
  { soxOk with spawn_ok := false
               spawn_err := "No such file or directory (os error 2)" }

/-- A WAV-parse environment in which parsing succeeds. -/
def wavOk : WavParseEnv :=
  { reader_ok := true, reader_err := "", samples_ok := true, samples_err := ""
    samples := [0, -1, 127] }

/-- A conversion environment in which everything succeeds. -/
def convOk : ConvEnv := { wav := wavOk, sox := soxOk }

/-- An HTTP environment in which the cloud call succeeds and returns a
three-byte buffer (which does not start with RIFF). -/
def httpOk : HttpEnv :=
  { send_ok := true, send_err := "", status_success := true, error_text := ""
    json_ok := true, json_err := "", b64_ok := true, b64_err := ""
    audio_data := [0, 1, 2] }

/-- A synthesis environment in which everything succeeds. -/
def senvOk : SynthEnv := { http := httpOk, conv := convOk }

/-- A playback environment in which every device operation succeeds. -/
def playOk : TtsPlayer.PlayEnv :=
  { stream_ok := true, stream_err := "", sink_ok := true, sink_err := ""
    decode_ok := true, decode_err := "" }

/-- A file-system environment in which the write succeeds. -/
def fsOk : FsEnv := { write_ok := true, write_err := "" }

/-- A full dispatcher environment in which everything succeeds. -/
def envOk : ExecEnv := { synth := senvOk, play := playOk, fs := fsOk }

/-! Helper lemmas shared by several claim theorems. -/

/-- Whatever the environment, a `play_audio` trace contains no transcoding
effect. -/
theorem play_audio_no_conversion_effects (env : TtsPlayer.PlayEnv)
    (data : List Nat) (fmt : AudioFormat) :
    ((TtsPlayer.play_audio env data fmt).2.all (fun e => !e.isExternalConversion)) = true := by
  unfold TtsPlayer.play_audio
  split_ifs <;> rfl

/-- Synthesizing MP3 always issues exactly the MP3 request at 22050 Hz as
its only effect, in every environment. -/
theorem synthesize_mp3_trace (tts : GoogleTts) (env : SynthEnv) (text : String) :
    (GoogleTts.synthesize tts env text .Mp3).2 =
      [.httpRequest (GoogleTts.mk_tts_request tts text "MP3" 22050)] := by
  unfold GoogleTts.synthesize
  split_ifs <;> rfl

/-- In every environment and for every format, the synthesize trace begins
with an HTTP request: the encoding lookup never aborts the call. -/
theorem synthesize_trace_head (tts : GoogleTts) (env : SynthEnv) (text : String)
    (fmt : AudioFormat) :
    ∃ req rest, (GoogleTts.synthesize tts env text fmt).2 = .httpRequest req :: rest := by
  cases fmt <;>
    · unfold GoogleTts.synthesize
      split_ifs <;> exact ⟨_, _, rfl⟩

/-! Claim theorems. -/

/-- C8: the `AudioFormat` property lookups are pure total functions
satisfying the spec table: `file_extension` maps Gsm to "gsm" and both Ulaw
and Alaw to "wav" while the two remain distinct tags; `is_telephony_format`
holds exactly for Ulaw, Alaw and Gsm; `telephony_sample_rate` is 8000 for
exactly the telephony formats and 22050 otherwise. -/
theorem audio_format_table_correct :
    AudioFormat.file_extension .Gsm = "gsm"
    ∧ AudioFormat.file_extension .Ulaw = "wav"
    ∧ AudioFormat.file_extension .Alaw = "wav"
    ∧ AudioFormat.Ulaw ≠ AudioFormat.Alaw
    ∧ ∀ f : AudioFormat,
        (f.is_telephony_format = true ↔ (f = .Ulaw ∨ f = .Alaw ∨ f = .Gsm))
        ∧ f.telephony_sample_rate = (if f.is_telephony_format then 8000 else 22050) := by
  refine ⟨rfl, rfl, rfl, by decide, ?_⟩
  intro f
  cases f <;> exact ⟨by decide, by decide⟩

/-- C6: for every buffer and every format without direct-playback support
(Ulaw, Alaw, Gsm), `play_audio` fails with the `PlaybackError` that points
the caller at file output, with an empty effect trace — the output device is
never opened and the buffer is never decoded. -/
theorem play_audio_rejects_non_playback (env : TtsPlayer.PlayEnv)
    (data : List Nat) (format : AudioFormat)
    (h : format.supports_direct_playback = false) :
    TtsPlayer.play_audio env data format =
      (.error (.PlaybackError
        (format.display ++ " format does not support direct playback. Use --output to save to file.")),
       []) := by
  unfold TtsPlayer.play_audio
  simp [h]

/-- Witness for C6 at the Gsm format. -/
theorem play_audio_rejects_non_playback_witness :
    TtsPlayer.play_audio playOk [1, 2] .Gsm =
      (.error (.PlaybackError
        (AudioFormat.display .Gsm ++ " format does not support direct playback. Use --output to save to file.")),
       []) :=
  play_audio_rejects_non_playback playOk [1, 2] .Gsm rfl

/-- C7: converting a buffer between two formats with the same tag (the Rust
discriminant test; `AudioFormat` variants carry no data, so same tag means
equal values) returns the input bytes unchanged with an empty effect trace —
no subprocess and no conversion routine is invoked. -/
theorem convert_same_format_identity (env : ConvEnv) (data : List Nat)
    (from_format to_format : AudioFormat) (h : from_format = to_format) :
    TtsPlayer.convert_audio_format env data from_format to_format =
      (.ok data, []) := by
  subst h
  unfold TtsPlayer.convert_audio_format
  simp

/-- Witness for C7 at the Wav/Wav pair. -/
theorem convert_same_format_identity_witness :
    TtsPlayer.convert_audio_format convOk [9, 9] .Wav .Wav = (.ok [9, 9], []) :=
  convert_same_format_identity convOk [9, 9] .Wav .Wav rfl

/-- C10: `save_audio_file` ignores its format parameter entirely — for any
two formats, the operation performs the identical writes, prints the
identical message and returns the identical result, which depend only on the
buffer, the path and the file-system outcome. -/
theorem save_audio_file_format_irrelevant (env : FsEnv) (data : List Nat)
    (path : String) (f1 f2 : AudioFormat) :
    TtsPlayer.save_audio_file env data path f1 =
      TtsPlayer.save_audio_file env data path f2 := rfl

/-- C3 counterexample: at destination "out" — a path containing no "." —
with format Gsm, the write targets the path "out" exactly as given, not
"out.gsm": the canonical extension is never appended. -/
theorem save_audio_file_no_extension_cex :
    (TtsPlayer.save_audio_file fsOk [1, 2, 3] "out" .Gsm).2 =
      [Effect.writeFile "out" [1, 2, 3], Effect.printLine "Audio saved to: out"]
    ∧ ¬ (Char.ofNat 46 ∈ "out".data)
    ∧ "out" ≠ "out" ++ "." ++ AudioFormat.file_extension .Gsm := by
  refine ⟨rfl, by decide, by decide⟩

/-- C3 amended: `save_audio_file` writes the buffer verbatim to the
destination path used exactly as given — whether or not the path contains a
"." the extension is never appended — and its trace contains no playback
action. -/
theorem save_audio_file_verbatim (env : FsEnv) (data : List Nat)
    (path : String) (fmt : AudioFormat) :
    ((TtsPlayer.save_audio_file env data path fmt).2.head? =
      some (Effect.writeFile path data))
    ∧ ((TtsPlayer.save_audio_file env data path fmt).2.all
        (fun e => !e.isPlaybackAction)) = true := by
  obtain ⟨wok, werr⟩ := env
  cases wok <;> exact ⟨rfl, rfl⟩

/-- C1 counterexample: at the Ulaw target — on the claimed native allow-list
— the cloud backend does not request the native MULAW encoding: it requests
LINEAR16, then enters `convert_to_raw_telephony` and spawns the external sox
process, even though `audio_format_to_google_encoding` maps Ulaw natively to
MULAW. -/
theorem ulaw_not_native_cex :
    (GoogleTts.synthesize tts0 senvOk "hello" .Ulaw).2 =
      [.httpRequest (GoogleTts.mk_tts_request tts0 "hello" "LINEAR16" 22050),
       .convertRoutine "convert_to_raw_telephony",
       .spawnTool "sox"]
    ∧ GoogleTts.audio_format_to_google_encoding .Ulaw = .ok "MULAW" := by
  exact ⟨rfl, rfl⟩

/-- C1 amended: only for the non-telephony formats Mp3, Wav and Ogg does the
cloud backend request the target encoding directly and return without
invoking the transcoder — its whole effect trace is the single native-format
HTTP request and contains no conversion routine and no subprocess spawn;
Ulaw and Alaw, although the encoding lookup supports them, are handled like
Gsm through the intermediate-Wav-plus-conversion path. -/
theorem synthesize_native_no_transcoder (tts : GoogleTts) (env : SynthEnv)
    (text : String) (fmt : AudioFormat) (h : fmt.is_telephony_format = false) :
    ((GoogleTts.synthesize tts env text fmt).2.all
        (fun e => !e.isExternalConversion)) = true
    ∧ ∃ enc, GoogleTts.audio_format_to_google_encoding fmt = .ok enc
        ∧ (GoogleTts.synthesize tts env text fmt).2 =
            [.httpRequest (GoogleTts.mk_tts_request tts text enc fmt.telephony_sample_rate)] := by
  cases fmt
  case Mp3 =>
    refine ⟨?_, "MP3", rfl, ?_⟩ <;>
      · unfold GoogleTts.synthesize
        split_ifs <;> rfl
  case Wav =>
    refine ⟨?_, "LINEAR16", rfl, ?_⟩ <;>
      · unfold GoogleTts.synthesize
        split_ifs <;> rfl
  case Ogg =>
    refine ⟨?_, "OGG_OPUS", rfl, ?_⟩ <;>
      · unfold GoogleTts.synthesize
        split_ifs <;> rfl
  all_goals exact absurd h (by decide)

/-- Witness for C1 amended at the Mp3 format. -/
theorem synthesize_native_no_transcoder_witness :
    ((GoogleTts.synthesize tts0 senvOk "hi" .Mp3).2.all
        (fun e => !e.isExternalConversion)) = true
    ∧ ∃ enc, GoogleTts.audio_format_to_google_encoding .Mp3 = .ok enc
        ∧ (GoogleTts.synthesize tts0 senvOk "hi" .Mp3).2 =
            [.httpRequest (GoogleTts.mk_tts_request tts0 "hi" enc
              (AudioFormat.telephony_sample_rate .Mp3))] :=
  synthesize_native_no_transcoder tts0 senvOk "hi" .Mp3 rfl

/-- C2 counterexample: with the cloud backend, target Gsm and no destination
path, in an environment where synthesis and the audio device succeed, the
output operation succeeds — it prints the speaking banner, requests MP3 (not
Gsm) from the cloud, and plays the MP3 buffer; no `PlaybackError` occurs and
no transcoding is attempted. -/
theorem gsm_no_destination_plays_mp3_cex :
    (execute_tts_output tts0 envOk "KSFO weather" none .Gsm).1 = .ok ()
    ∧ (execute_tts_output tts0 envOk "KSFO weather" none .Gsm).2 =
        [.printLine "Speaking weather...",
         .httpRequest (GoogleTts.mk_tts_request tts0 "KSFO weather" "MP3" 22050),
         .openOutputDevice, .createSink, .decodeForPlayback, .appendAndPlay] := by
  exact ⟨rfl, rfl⟩

/-- C2 amended: with no destination path the dispatcher ignores the target
format altogether — for the cloud backend it behaves identically to target
Mp3 (speak synthesizes MP3 and plays it), and its effect trace never
contains a transcoding step; in particular target Gsm does not produce the
claimed `PlaybackError`. -/
theorem no_destination_ignores_format (tts : GoogleTts) (env : ExecEnv)
    (text : String) (fmt : AudioFormat) :
    execute_tts_output tts env text none fmt =
      execute_tts_output tts env text none .Mp3
    ∧ ((execute_tts_output tts env text none fmt).2.all
        (fun e => !e.isExternalConversion)) = true := by
  refine ⟨rfl, ?_⟩
  show ((execute_tts_output tts env text none fmt).2.all
        (fun e => !e.isExternalConversion)) = true
  have hspeak : (GoogleTts.speak tts env.synth env.play text).2 =
      [.httpRequest (GoogleTts.mk_tts_request tts text "MP3" 22050)]
        ++ (match (GoogleTts.synthesize tts env.synth text .Mp3).1 with
            | .error _ => []
            | .ok data => (TtsPlayer.play_audio env.play data .Mp3).2) := by
    unfold GoogleTts.speak
    cases hr : (GoogleTts.synthesize tts env.synth text .Mp3).1 <;>
      simp [hr, synthesize_mp3_trace]
  unfold execute_tts_output
  simp only [hspeak, List.all_append, List.all_cons, List.all_nil]
  cases hr : (GoogleTts.synthesize tts env.synth text .Mp3).1 <;>
    simp [Effect.isExternalConversion]
  rename_i data
  intro x hx
  have h2 := play_audio_no_conversion_effects env.play data .Mp3
  rw [List.all_eq_true] at h2
  have h3 := h2 x hx
  simpa [Effect.isExternalConversion] using h3

/-- C4 evaluated at the failing input: synthesizing for the Gsm target via
the intermediate-Wav path sends a request whose `sampleRateHertz` is 22050 —
the rate of the remapped Wav intermediate — although the format's own
telephony rate, which the spec says the request should carry, is 8000. -/
theorem gsm_request_sample_rate_22050 :
    (GoogleTts.synthesize tts0 senvOk "x" .Gsm).2.head? =
      some (.httpRequest (GoogleTts.mk_tts_request tts0 "x" "LINEAR16" 22050))
    ∧ AudioFormat.telephony_sample_rate .Gsm = 8000 := ⟨rfl, rfl⟩

/-- C5 counterexample: when spawning sox fails, the transcoder returns
immediately with an `AudioConversionError` naming only sox and the OS spawn
error — no secondary tool is attempted (the trace holds exactly one spawn
attempt) and no installation instruction for a second tool appears. -/
theorem sox_spawn_failure_no_fallback_cex :
    convert_wav_to_gsm soxAbsent [1, 2] =
      (.error (.AudioConversionError
        "Failed to spawn sox for GSM conversion: No such file or directory (os error 2)"),
       [.spawnTool "sox"]) := by
  rfl

/-- C5 amended: the transcoder knows a single external tool: every run of
`convert_wav_to_telephony_format` attempts exactly one spawn, of sox, and on
spawn failure it returns at once an `AudioConversionError` naming sox and
the spawn error — there is no fallback tool. -/
theorem transcoder_single_tool (env : SoxEnv) (wav_data : List Nat)
    (sox_format format_name : String) :
    ((convert_wav_to_telephony_format env wav_data sox_format format_name).2 =
      [Effect.spawnTool "sox"])
    ∧ (env.spawn_ok = false →
        (convert_wav_to_telephony_format env wav_data sox_format format_name).1 =
          .error (.AudioConversionError
            ("Failed to spawn sox for " ++ format_name ++ " conversion: "
              ++ env.spawn_err))) := by
  constructor
  · unfold convert_wav_to_telephony_format
    split_ifs <;> rfl
  · intro h
    unfold convert_wav_to_telephony_format
    simp [h]

/-- Witness for C5 amended at an absent-sox environment. -/
theorem transcoder_single_tool_witness :
    ((convert_wav_to_telephony_format soxAbsent [1] "gsm" "GSM").2 =
      [Effect.spawnTool "sox"])
    ∧ (convert_wav_to_telephony_format soxAbsent [1] "gsm" "GSM").1 =
        .error (.AudioConversionError
          ("Failed to spawn sox for " ++ "GSM" ++ " conversion: "
            ++ soxAbsent.spawn_err)) :=
  ⟨(transcoder_single_tool soxAbsent [1] "gsm" "GSM").1,
   (transcoder_single_tool soxAbsent [1] "gsm" "GSM").2 rfl⟩

/-- C9: the Gsm branch of the encoding lookup is unreachable from
`synthesize`: the remapped format handed to the lookup is never Gsm, the
lookup on it always succeeds, and `synthesize` never returns through the
lookup-failure path (which would return the GSM-unsupported
`AudioConversionError` with an empty effect trace — yet every actual run's
trace begins with the HTTP request). -/
theorem gsm_encoding_branch_unreachable (tts : GoogleTts) (env : SynthEnv)
    (text : String) (format : AudioFormat) :
    GoogleTts.google_format_of format ≠ .Gsm
    ∧ (∃ enc, GoogleTts.audio_format_to_google_encoding
        (GoogleTts.google_format_of format) = .ok enc)
    ∧ GoogleTts.synthesize tts env text format ≠
        (.error (.AudioConversionError
          "GSM format not directly supported by Google TTS. Use WAV and convert to GSM."),
         []) := by
  refine ⟨by cases format <;> decide, ?_, ?_⟩
  · cases format
    case Mp3 => exact ⟨"MP3", rfl⟩
    case Wav => exact ⟨"LINEAR16", rfl⟩
    case Ogg => exact ⟨"OGG_OPUS", rfl⟩
    all_goals exact ⟨"LINEAR16", rfl⟩
  · intro h
    obtain ⟨req, rest, h2⟩ := synthesize_trace_head tts env text format
    have h3 := congrArg Prod.snd h
    rw [h2] at h3
    simp at h3

end WeatherRs
